import Mathlib

/-!
A shallow embedding of the GPU administration dashboard (src/main.py):
the reservation approval state machine and the capacity/availability
engine (usage snapshot, pool table, daily timeline), with theorems
checking the specification's claims against the embedded code.

Modelling conventions:
* Calendar dates are modelled as day indices (Nat); the pandas
  date_range over an inclusive date range becomes the list of day
  indices, which is empty when the end precedes the start.
* Python str values are Lean Strings; the two Python string operations
  used by the approve handler, s.split(",") and ",".join(lst), are
  embedded as structural recursions over the underlying character list.
* The sqlite tables become lists of records; the Python dict built for
  the usage snapshot becomes an association list, and dict.get(k, 0)
  becomes an association-list lookup with default 0.
-/

namespace GpuAdmin

/-- Embedding of Python s.split(",") acting on the character list of a
string: splitting an empty string yields one empty group, and every
comma ends the current group and starts a new one. -/
def splitCommaData : List Char → List (List Char)
  | [] => [[]]
  | c :: cs =>
    if c = ',' then [] :: splitCommaData cs
    else
      match splitCommaData cs with
      | [] => [[c]]
      | g :: gs => (c :: g) :: gs

/-- Embedding of Python ",".join acting on character lists. -/
def joinCommaData : List (List Char) → List Char
  | [] => []
  | [a] => a
  | a :: b :: rest => a ++ ',' :: joinCommaData (b :: rest)

/-- Python s.split(",") on Lean strings. -/
def split_str (s : String) : List String :=
  (splitCommaData s.data).map String.mk

/-- Python ",".join(lst) on Lean strings. -/
def join_str (l : List String) : String :=
  String.mk (joinCommaData (l.map String.data))

/-- Line 290 of src/main.py: the stored approvers string is split on
commas when non-empty (Python truthiness), otherwise the empty list. -/
def parse_approvers (s : String) : List String :=
  if s = "" then [] else split_str s

/-- A row of the gpu_usage table (src/main.py lines 28-38); dates are
day indices and the count column defaults to 1 in the schema. -/
structure UsageRecord where
  id : Nat
  start_date : Nat
  end_date : Option Nat
  gpu_type : String
  service_name : String
  count : Nat
  source : String
deriving DecidableEq

/-- A row of the reservations table (src/main.py lines 41-52); status
defaults to "pending" and approvers to the empty string. -/
structure ReservationRecord where
  id : Nat
  start_date : Nat
  end_date : Option Nat
  gpu_type : String
  service_name : String
  count : Nat
  status : String
  approvers : String
deriving DecidableEq

/-- The body of the approve button handler (src/main.py lines 290-295):
from the stored approvers string, compute the updated approvers string
and the updated status.  The next approver is the positional identifier
member(N+1) for current approver count N; it is appended only when not
already present, and the status becomes "approved" exactly when the
resulting list has at least 3 entries. -/
def approve_fields (approvers0 : String) : String × String :=
  let approvers := parse_approvers approvers0
  let next := "member" ++ toString (approvers.length + 1)
  let approvers2 := if approvers.contains next then approvers else approvers ++ [next]
  (join_str approvers2, if 3 ≤ approvers2.length then "approved" else "pending")

/-- The approve operation on a single reservation record.  The handler
is only reachable when the record is not yet approved (the guard on
line 288 of src/main.py hides the button otherwise), so an approved
record is left unchanged. -/
def approveStep (r : ReservationRecord) : ReservationRecord :=
  if r.status = "approved" then r
  else
    let p := approve_fields r.approvers
    { r with approvers := p.1, status := p.2 }

/-- The add_reservation helper (src/main.py lines 91-96): insert a new row; the
schema defaults give it status "pending" and an empty approvers string.
The auto-assigned id is passed explicitly. -/
def add_reservation (store : List ReservationRecord) (newId sd : Nat)
    (ed : Option Nat) (svc gt : String) (c : Nat) : List ReservationRecord :=
  store ++ [{ id := newId, start_date := sd, end_date := ed, gpu_type := gt,
              service_name := svc, count := c, status := "pending", approvers := "" }]

/-- The update_approvers helper (src/main.py lines 102-108): set the approvers and
status columns of every row whose id matches. -/
def update_approvers (store : List ReservationRecord) (rid : Nat)
    (a st : String) : List ReservationRecord :=
  store.map fun x => if x.id = rid then { x with approvers := a, status := st } else x

/-- The delete_reservation helper (src/main.py lines 110-112): remove the rows
whose id matches. -/
def delete_reservation (store : List ReservationRecord) (rid : Nat) :
    List ReservationRecord :=
  store.filter fun x => x.id != rid

/-- The approve button handler at store level (src/main.py lines
288-295): guarded by the record not being approved, compute the new
approvers/status from the displayed record and persist them under its
id. -/
def approveInStore (store : List ReservationRecord) (r : ReservationRecord) :
    List ReservationRecord :=
  if r.status = "approved" then store
  else update_approvers store r.id (approve_fields r.approvers).1 (approve_fields r.approvers).2

/-- Reservation store states reachable through the create, approve and
delete operations, starting from an empty table. -/
inductive Reach : List ReservationRecord → Prop where
  | init : Reach []
  | create : ∀ {s} (newId sd : Nat) (ed : Option Nat) (svc gt : String) (c : Nat),
      Reach s → Reach (add_reservation s newId sd ed svc gt c)
  | approve : ∀ {s r}, Reach s → r ∈ s → Reach (approveInStore s r)
  | del : ∀ {s} (rid : Nat), Reach s → Reach (delete_reservation s rid)

/-- Single reservation states reachable through create followed by any
number of sequential approve operations. -/
inductive Reach1 : ReservationRecord → Prop where
  | created : ∀ (newId sd : Nat) (ed : Option Nat) (svc gt : String) (c : Nat),
      Reach1 { id := newId, start_date := sd, end_date := ed, gpu_type := gt,
               service_name := svc, count := c, status := "pending", approvers := "" }
  | approved : ∀ {r}, Reach1 r → Reach1 (approveStep r)

/-- The canonical positional approver list [member1, ..., memberN]. -/
def member_list (n : Nat) : List String :=
  (List.range n).map fun i => "member" ++ toString (i + 1)

/-- The pd.date_range expansion over day indices (src/main.py line 218): the inclusive
list of days from s to e, empty when e < s. -/
def date_range (s e : Nat) : List Nat :=
  if e < s then [] else (List.range (e - s + 1)).map (s + ·)

/-- Timeline expansion of a usage row (src/main.py lines 215-223): one
(date, gpu_type, count) contribution per covered day; a missing
end_date means the single day start_date. -/
def expand_usage (u : UsageRecord) : List (Nat × String × Nat) :=
  (date_range u.start_date (u.end_date.getD u.start_date)).map fun d => (d, u.gpu_type, u.count)

/-- Timeline expansion of a reservation row (src/main.py lines
226-234), identical in shape to the usage expansion. -/
def expand_resv (r : ReservationRecord) : List (Nat × String × Nat) :=
  (date_range r.start_date (r.end_date.getD r.start_date)).map fun d => (d, r.gpu_type, r.count)

/-- The approved_df query (src/main.py lines 187-190): the reservations
whose status is "approved". -/
def approved_reservations (rs : List ReservationRecord) : List ReservationRecord :=
  rs.filter fun r => r.status == "approved"

/-- All timeline rows (src/main.py lines 212-234): the per-day
contributions of every usage row followed by those of every approved
reservation. -/
def timeline_rows (usage : List UsageRecord) (rs : List ReservationRecord) :
    List (Nat × String × Nat) :=
  usage.flatMap expand_usage ++ (approved_reservations rs).flatMap expand_resv

/-- One cell of the daily pivot (src/main.py lines 239-240): the summed
count of the timeline rows grouped under (date, gpu_type); absent
groups are the fillna(0) default 0. -/
def used_on (rows : List (Nat × String × Nat)) (d : Nat) (t : String) : Nat :=
  ((rows.filter fun x => x.1 == d && x.2.1 == t).map fun x => x.2.2).sum

/-- The dict comprehension on line 164 of src/main.py: every pool type
keyed to an accumulator starting at 0. -/
def initial_usage (types : List String) : List (String × Nat) :=
  types.map fun t => (t, 0)

/-- One iteration of the accumulation loop (src/main.py lines 166-168):
when the row's gpu_type is a key of the accumulator, add the row's
count to that key's value; otherwise the row is ignored. -/
def bump (m : List (String × Nat)) (u : UsageRecord) : List (String × Nat) :=
  if (m.map Prod.fst).contains u.gpu_type then
    m.map fun p => if p.1 == u.gpu_type then (p.1, p.2 + u.count) else p
  else m

/-- The current_usage accumulator after the loop over all usage rows
(src/main.py lines 164-168). -/
def current_usage (types : List String) (usage : List UsageRecord) :
    List (String × Nat) :=
  usage.foldl bump (initial_usage types)

/-- Python dict.get(k, 0) on the association list. -/
def dget (m : List (String × Nat)) (t : String) : Nat :=
  (m.lookup t).getD 0

/-- The state read by the dashboard: the gpu_pool table as an
association list from gpu_type to total, the gpu_usage table and the
reservations table. -/
structure DashState where
  pool : List (String × Nat)
  usage : List UsageRecord
  reservations : List ReservationRecord
deriving DecidableEq

/-- A row of the snapshot table pool_df (src/main.py lines 170-178). -/
structure PoolRow where
  gpu_type : String
  total : Nat
  used : Nat
  available : Int
deriving DecidableEq

/-- The snapshot table pool_df (src/main.py lines 162-178): one row per
pool entry, with Used read from the current_usage accumulator via
dict.get(gpu_type, 0) and Available its difference from Total. -/
def pool_df (s : DashState) : List PoolRow :=
  s.pool.map fun p =>
    { gpu_type := p.1, total := p.2,
      used := dget (current_usage (s.pool.map Prod.fst) s.usage) p.1,
      available := (p.2 : Int) - (dget (current_usage (s.pool.map Prod.fst) s.usage) p.1 : Int) }

/-- The timeline rows of a dashboard state. -/
def timelineRowsOf (s : DashState) : List (Nat × String × Nat) :=
  timeline_rows s.usage s.reservations

/-- The used count of a (date, gpu_type) cell of the daily pivot. -/
def daily_used (s : DashState) (d : Nat) (t : String) : Nat :=
  used_on (timelineRowsOf s) d t

/-- One cell of a gpu_type_available column of the daily pivot
(src/main.py lines 243-244): the pool entry's total minus the used
count on that date. -/
def daily_available (s : DashState) (d : Nat) (p : String × Nat) : Int :=
  (p.2 : Int) - (daily_used s d p.1 : Int)

/-- Splitting an inclusive-range reservation into one single-day
reservation per covered day, keeping every other field. -/
def split_reservation (r : ReservationRecord) : List ReservationRecord :=
  (date_range r.start_date (r.end_date.getD r.start_date)).map
    fun d => { r with start_date := d, end_date := some d }

/-- The per-type sum of the counts of the usage rows the accumulation
loop actually adds: those whose gpu_type equals the given type and is a
pool key. -/
def tally (types : List String) (us : List UsageRecord) (t : String) : Nat :=
  ((us.filter fun u => u.gpu_type == t && types.contains u.gpu_type).map fun u => u.count).sum

/-- A reservation record used by the concrete claim instance: freshly
created with the schema defaults. -/
def sample_pending : ReservationRecord :=
  { id := 1, start_date := 10, end_date := some 12, gpu_type := "H100",
    service_name := "svc", count := 1, status := "pending", approvers := "" }

/-! ### The approval invariant

Because the status flips to approved as soon as the third approver is
appended and the handler is unreachable on an approved record, every
reachable record carries one of four concrete approvers strings. -/

/-- The inductive invariant of the approval state machine: a pending
record holds one of the three proper prefixes of the member sequence,
an approved record holds exactly the three-member sequence. -/
def GoodRec (r : ReservationRecord) : Prop :=
  (r.status = "pending" ∧
    (r.approvers = "" ∨ r.approvers = "member1" ∨ r.approvers = "member1,member2"))
  ∨ (r.status = "approved" ∧ r.approvers = "member1,member2,member3")

lemma approveStep_of_pending {r : ReservationRecord} (hs : r.status = "pending") :
    approveStep r =
      { r with approvers := (approve_fields r.approvers).1,
               status := (approve_fields r.approvers).2 } := by
  unfold approveStep
  rw [if_neg (by rw [hs]; decide)]

lemma goodRec_approveStep {r : ReservationRecord} (h : GoodRec r) :
    GoodRec (approveStep r) := by
  rcases h with ⟨hs, ha | ha | ha⟩ | ⟨hs, ha⟩
  · rw [approveStep_of_pending hs, ha,
      show approve_fields "" = ("member1", "pending") from by decide]
    exact Or.inl ⟨rfl, Or.inr (Or.inl rfl)⟩
  · rw [approveStep_of_pending hs, ha,
      show approve_fields "member1" = ("member1,member2", "pending") from by decide]
    exact Or.inl ⟨rfl, Or.inr (Or.inr rfl)⟩
  · rw [approveStep_of_pending hs, ha,
      show approve_fields "member1,member2" = ("member1,member2,member3", "approved")
        from by decide]
    exact Or.inr ⟨rfl, rfl⟩
  · unfold approveStep
    rw [if_pos hs]
    exact Or.inr ⟨hs, ha⟩

lemma goodRec_update {x r : ReservationRecord} (h : GoodRec r)
    (hs : ¬ r.status = "approved") :
    GoodRec { x with approvers := (approve_fields r.approvers).1,
                     status := (approve_fields r.approvers).2 } := by
  rcases h with ⟨_, ha | ha | ha⟩ | ⟨hs', _⟩
  · rw [ha, show approve_fields "" = ("member1", "pending") from by decide]
    exact Or.inl ⟨rfl, Or.inr (Or.inl rfl)⟩
  · rw [ha, show approve_fields "member1" = ("member1,member2", "pending") from by decide]
    exact Or.inl ⟨rfl, Or.inr (Or.inr rfl)⟩
  · rw [ha, show approve_fields "member1,member2" = ("member1,member2,member3", "approved")
        from by decide]
    exact Or.inr ⟨rfl, rfl⟩
  · exact absurd hs' hs

/-- Every record of every reachable store satisfies the invariant. -/
lemma reach_good {s : List ReservationRecord} (h : Reach s) :
    ∀ r ∈ s, GoodRec r := by
  induction h with
  | init => intro r hr; cases hr
  | create newId sd ed svc gt c _ ih =>
      intro r hr
      rcases List.mem_append.1 hr with hr | hr
      · exact ih r hr
      · rcases List.mem_singleton.1 hr with rfl
        exact Or.inl ⟨rfl, Or.inl rfl⟩
  | @approve s' r' _ hmem ih =>
      intro x hx
      unfold approveInStore at hx
      by_cases hr : r'.status = "approved"
      · rw [if_pos hr] at hx
        exact ih x hx
      · rw [if_neg hr] at hx
        unfold update_approvers at hx
        rcases List.mem_map.1 hx with ⟨y, hy, rfl⟩
        by_cases hid : y.id = r'.id
        · rw [if_pos hid]
          exact goodRec_update (ih r' hmem) hr
        · rw [if_neg hid]
          exact ih y hy
  | del rid _ ih =>
      intro x hx
      exact ih x (List.mem_filter.1 hx).1

lemma reach1_good {r : ReservationRecord} (h : Reach1 r) : GoodRec r := by
  induction h with
  | created => exact Or.inl ⟨rfl, Or.inl rfl⟩
  | approved _ ih => exact goodRec_approveStep ih

/-! ### Claims about the approval state machine -/

/-- Claim C1: starting from a freshly created reservation (status
pending, empty approvers), three sequential approve calls transition
the status pending, pending, pending, approved, and after the third
call the approvers list is exactly [member1, member2, member3]. -/
theorem approve_three_times_quorum :
    sample_pending.status = "pending" ∧ sample_pending.approvers = "" ∧
    (approveStep sample_pending).status = "pending" ∧
    (approveStep (approveStep sample_pending)).status = "pending" ∧
    (approveStep (approveStep (approveStep sample_pending))).status = "approved" ∧
    parse_approvers (approveStep (approveStep (approveStep sample_pending))).approvers =
      ["member1", "member2", "member3"] := by
  decide

/-- Claim C2: in every store state reachable through create, approve
and delete, a record's status is "approved" exactly when its approvers
list has at least 3 entries, all pairwise distinct. -/
theorem reach_status_iff_quorum {s : List ReservationRecord} (h : Reach s) :
    ∀ r ∈ s, r.status = "approved" ↔
      3 ≤ (parse_approvers r.approvers).length ∧ (parse_approvers r.approvers).Nodup := by
  intro r hr
  rcases reach_good h r hr with ⟨hs, ha | ha | ha⟩ | ⟨hs, ha⟩ <;> rw [hs, ha] <;> decide

/-- Witness for C2 at a concrete reachable store: create one
reservation and approve it once. -/
theorem reach_status_iff_quorum_witness :
    (({ id := 1, start_date := 0, end_date := none, gpu_type := "A100",
        service_name := "svc", count := 2, status := "pending",
        approvers := "member1" } : ReservationRecord).status = "approved" ↔
      3 ≤ (parse_approvers "member1").length ∧ (parse_approvers "member1").Nodup) :=
  reach_status_iff_quorum
    (@Reach.approve (add_reservation [] 1 0 none "svc" "A100" 2)
      { id := 1, start_date := 0, end_date := none, gpu_type := "A100",
        service_name := "svc", count := 2, status := "pending", approvers := "" }
      (Reach.create 1 0 none "svc" "A100" 2 Reach.init) (by decide))
    { id := 1, start_date := 0, end_date := none, gpu_type := "A100",
      service_name := "svc", count := 2, status := "pending", approvers := "member1" }
    (by decide)

/-- Claim C9: the approve operation changes at most the approvers and
status fields of the records carrying the approved id; every field
other than approvers and status is preserved in every record, and a
record whose id differs is unchanged entirely. -/
theorem approve_frame (store : List ReservationRecord) (r : ReservationRecord) :
    List.Forall₂ (fun x y =>
      y.id = x.id ∧ y.start_date = x.start_date ∧ y.end_date = x.end_date ∧
      y.gpu_type = x.gpu_type ∧ y.service_name = x.service_name ∧
      y.count = x.count ∧ (x.id ≠ r.id → y = x)) store (approveInStore store r) := by
  unfold approveInStore
  split
  · exact List.forall₂_same.2 fun x _ => ⟨rfl, rfl, rfl, rfl, rfl, rfl, fun _ => rfl⟩
  · unfold update_approvers
    rw [List.forall₂_map_right_iff]
    refine List.forall₂_same.2 fun x _ => ?_
    by_cases hid : x.id = r.id
    · rw [if_pos hid]
      exact ⟨rfl, rfl, rfl, rfl, rfl, rfl, fun hne => absurd hid hne⟩
    · rw [if_neg hid]
      exact ⟨rfl, rfl, rfl, rfl, rfl, rfl, fun _ => rfl⟩

/-- Claim C10: after create and any number of sequential approves, the
approvers list is exactly the sequence [member1, ..., memberN] of
consecutive positional identifiers, N being its length. -/
theorem reach1_approvers_canonical {r : ReservationRecord} (h : Reach1 r) :
    parse_approvers r.approvers = member_list (parse_approvers r.approvers).length := by
  rcases reach1_good h with ⟨_, ha | ha | ha⟩ | ⟨_, ha⟩ <;> rw [ha] <;> decide

/-- Witness for C10 after two approve calls on a fresh reservation. -/
theorem reach1_approvers_canonical_witness :
    parse_approvers (approveStep (approveStep
      { id := 1, start_date := 0, end_date := none, gpu_type := "A100",
        service_name := "svc", count := 1, status := "pending",
        approvers := "" })).approvers =
    member_list (parse_approvers (approveStep (approveStep
      { id := 1, start_date := 0, end_date := none, gpu_type := "A100",
        service_name := "svc", count := 1, status := "pending",
        approvers := "" })).approvers).length :=
  reach1_approvers_canonical
    (Reach1.approved (Reach1.approved (Reach1.created 1 0 none "svc" "A100" 1)))

/-! ### Claims about the daily timeline -/

lemma approved_reservations_cons_of_pending {r : ReservationRecord}
    (hs : r.status = "pending") (l : List ReservationRecord) :
    approved_reservations (r :: l) = approved_reservations l := by
  unfold approved_reservations
  rw [List.filter_cons_of_neg]
  rw [hs]
  decide

/-- Claim C3: only approved reservations contribute rows to the daily
timeline; inserting a pending reservation anywhere leaves the timeline
rows unchanged. -/
theorem pending_reservation_contributes_nothing :
    (∀ (usage : List UsageRecord) (rs : List ReservationRecord),
      timeline_rows usage rs = timeline_rows usage (approved_reservations rs)) ∧
    (∀ (usage : List UsageRecord) (pre post : List ReservationRecord)
        (r : ReservationRecord), r.status = "pending" →
      timeline_rows usage (pre ++ r :: post) = timeline_rows usage (pre ++ post)) := by
  constructor
  · intro usage rs
    unfold timeline_rows
    congr 1
    unfold approved_reservations
    have hid : List.filter (fun r : ReservationRecord => r.status == "approved")
        (List.filter (fun r : ReservationRecord => r.status == "approved") rs) =
        List.filter (fun r : ReservationRecord => r.status == "approved") rs :=
      List.filter_eq_self.2 fun a ha => (List.mem_filter.1 ha).2
    rw [hid]
  · intro usage pre post r hs
    unfold timeline_rows
    congr 2
    unfold approved_reservations
    rw [List.filter_append, List.filter_append]
    congr 1
    exact approved_reservations_cons_of_pending hs post

/-- Witness for C3: a pending reservation next to an approved one adds
nothing to the timeline rows. -/
theorem pending_reservation_contributes_nothing_witness :
    timeline_rows []
      ([{ id := 1, start_date := 3, end_date := some 4, gpu_type := "A100",
          service_name := "svc", count := 2, status := "approved",
          approvers := "member1,member2,member3" }] ++
        ({ id := 2, start_date := 3, end_date := some 4, gpu_type := "A100",
           service_name := "svc", count := 7, status := "pending",
           approvers := "" } : ReservationRecord) :: []) =
    timeline_rows []
      ([{ id := 1, start_date := 3, end_date := some 4, gpu_type := "A100",
          service_name := "svc", count := 2, status := "approved",
          approvers := "member1,member2,member3" }] ++ []) :=
  pending_reservation_contributes_nothing.2 [] _ [] _ rfl

lemma expand_resv_single (r : ReservationRecord) (d : Nat) :
    expand_resv { r with start_date := d, end_date := some d } =
      [(d, r.gpu_type, r.count)] := by
  unfold expand_resv date_range
  simp [show List.range 1 = [0] from rfl]

lemma flatMap_singleton_eq_map {α β : Type} (f : α → β) (l : List α) :
    (l.flatMap fun a => [f a]) = l.map f := by
  induction l with
  | nil => rfl
  | cons a as ih => simp [ih]

lemma split_reservation_flatMap (r : ReservationRecord) :
    (split_reservation r).flatMap expand_resv = expand_resv r := by
  unfold split_reservation
  rw [List.flatMap_map]
  simp only [expand_resv_single]
  exact flatMap_singleton_eq_map _ _

lemma approved_split (r : ReservationRecord) :
    approved_reservations (split_reservation r) =
      if r.status = "approved" then split_reservation r else [] := by
  unfold approved_reservations split_reservation
  rw [List.filter_map]
  by_cases hb : r.status = "approved"
  · rw [if_pos hb]
    have hfn : ((fun x : ReservationRecord => x.status == "approved") ∘
        (fun d => { r with start_date := d, end_date := some d })) = fun _ => true := by
      funext d
      simp [hb]
    rw [hfn]
    simp
  · rw [if_neg hb]
    have hfn : ((fun x : ReservationRecord => x.status == "approved") ∘
        (fun d => { r with start_date := d, end_date := some d })) = fun _ => false := by
      funext d
      simp [hb]
    rw [hfn]
    simp

/-- Claim C8: splitting a reservation spanning a range into one
single-day reservation per covered day, in place, yields identical
timeline rows, hence an identical timeline. -/
theorem timeline_split_additive (usage : List UsageRecord)
    (pre post : List ReservationRecord) (r : ReservationRecord) :
    timeline_rows usage (pre ++ split_reservation r ++ post) =
      timeline_rows usage (pre ++ r :: post) := by
  have hA : ∀ (l m : List ReservationRecord),
      approved_reservations (l ++ m) =
        approved_reservations l ++ approved_reservations m := by
    intro l m
    unfold approved_reservations
    exact List.filter_append ..
  unfold timeline_rows
  congr 1
  rw [List.append_assoc, ← List.singleton_append, hA, hA, hA, hA,
    List.flatMap_append, List.flatMap_append, List.flatMap_append, List.flatMap_append]
  congr 1
  by_cases hb : r.status = "approved"
  · rw [approved_split, if_pos hb, split_reservation_flatMap]
    have h1 : approved_reservations [r] = [r] := by
      unfold approved_reservations
      simp [hb]
    rw [h1, List.flatMap_singleton]
  · rw [approved_split, if_neg hb]
    have h0 : approved_reservations [r] = [] := by
      unfold approved_reservations
      simp [hb]
    rw [h0]

/-- Claim C6 (amended): a record whose end date precedes its start date
expands to no timeline contribution at all. -/
theorem reversed_range_expands_empty :
    (∀ (u : UsageRecord) (e : Nat), u.end_date = some e → e < u.start_date →
      expand_usage u = []) ∧
    (∀ (r : ReservationRecord) (e : Nat), r.end_date = some e → e < r.start_date →
      expand_resv r = []) := by
  constructor
  · intro u e he hlt
    unfold expand_usage date_range
    rw [he]
    simp [hlt]
  · intro r e he hlt
    unfold expand_resv date_range
    rw [he]
    simp [hlt]

/-- Witness for C6: a usage record running from day 5 back to day 1
contributes no timeline rows. -/
theorem reversed_range_expands_empty_witness :
    expand_usage
      { id := 1, start_date := 5, end_date := some 1,
        gpu_type := "A100", service_name := "svc", count := 2,
        source := "manual" } = [] :=
  reversed_range_expands_empty.1 _ 1 rfl (by decide)

/-- Counterexample for C6 as stated: the reversed-range record is
claimed to count the single day start_date with its count (2), but the
code produces no rows at all, so day 5 carries 0, not 2. -/
theorem reversed_range_counterexample :
    timelineRowsOf
      { pool := [("A100", 10)],
        usage := [{ id := 1, start_date := 5, end_date := some 1,
                    gpu_type := "A100", service_name := "svc", count := 2,
                    source := "manual" }],
        reservations := [] } = [] ∧
    daily_used
      { pool := [("A100", 10)],
        usage := [{ id := 1, start_date := 5, end_date := some 1,
                    gpu_type := "A100", service_name := "svc", count := 2,
                    source := "manual" }],
        reservations := [] } 5 "A100" = 0 ∧
    ¬ (daily_used
      { pool := [("A100", 10)],
        usage := [{ id := 1, start_date := 5, end_date := some 1,
                    gpu_type := "A100", service_name := "svc", count := 2,
                    source := "manual" }],
        reservations := [] } 5 "A100" = 2) := by
  decide

/-! ### Claims about the usage snapshot -/

lemma lookup_map_key (types : List String) (g : String → Nat) (t : String)
    (h : t ∈ types) :
    List.lookup t (types.map fun x => (x, g x)) = some (g t) := by
  induction types with
  | nil => cases h
  | cons a as ih =>
    by_cases hta : t = a
    · subst hta
      simp [List.lookup]
    · have hf : (t == a) = false := by
        rw [beq_eq_false_iff_ne]
        exact hta
      rcases List.mem_cons.1 h with h' | h'
      · exact absurd h' hta
      · simpa [List.lookup, hf] using ih h'

/-- The accumulator keeps the shape of the initial dict throughout the
loop: the pool types in order, each carrying a value. -/
lemma foldl_bump_shape (types : List String) (us : List UsageRecord) :
    ∀ g : String → Nat,
      List.foldl bump (types.map fun t => (t, g t)) us =
        types.map fun t => (t, g t + tally types us t) := by
  induction us with
  | nil =>
    intro g
    simp [tally]
  | cons u us ih =>
    intro g
    have hkeys : ((types.map fun t => (t, g t)).map Prod.fst) = types := by
      rw [List.map_map,
        show (Prod.fst ∘ fun t : String => (t, g t)) = id from rfl, List.map_id]
    rw [List.foldl_cons]
    by_cases hc : (types.contains u.gpu_type) = true
    · have hb : bump (types.map fun t => (t, g t)) u =
          types.map fun t => (t, if t == u.gpu_type then g t + u.count else g t) := by
        unfold bump
        rw [hkeys, if_pos hc, List.map_map]
        apply List.map_congr_left
        intro a _
        by_cases hab : (a == u.gpu_type) = true <;> simp [Function.comp, hab]
      rw [hb, ih]
      apply List.map_congr_left
      intro a _
      refine congrArg (Prod.mk a) ?_
      have htc : tally types (u :: us) a =
          (if u.gpu_type == a && types.contains u.gpu_type then u.count else 0) +
            tally types us a := by
        unfold tally
        rw [List.filter_cons]
        by_cases hx : (u.gpu_type == a && types.contains u.gpu_type) = true
        · rw [if_pos hx, if_pos hx, List.map_cons, List.sum_cons]
        · rw [if_neg hx, if_neg hx, Nat.zero_add]
      rw [htc]
      by_cases hau : u.gpu_type = a
      · subst hau
        have h1 : (u.gpu_type == u.gpu_type) = true := beq_self_eq_true _
        have h2 : (u.gpu_type == u.gpu_type && types.contains u.gpu_type) = true := by
          rw [hc, Bool.and_true]
          exact h1
        rw [if_pos h1, if_pos h2]
        omega
      · have h1 : (a == u.gpu_type) = false := by
          rw [beq_eq_false_iff_ne]
          exact fun h => hau h.symm
        have h2 : (u.gpu_type == a && types.contains u.gpu_type) = false := by
          have h3 : (u.gpu_type == a) = false := by
            rw [beq_eq_false_iff_ne]
            exact hau
          rw [h3, Bool.false_and]
        rw [if_neg (by rw [h1]; exact Bool.false_ne_true),
          if_neg (by rw [h2]; exact Bool.false_ne_true)]
        omega
    · have hb : bump (types.map fun t => (t, g t)) u = types.map fun t => (t, g t) := by
        unfold bump
        rw [hkeys, if_neg hc]
      have hcf : types.contains u.gpu_type = false := by
        simpa using hc
      rw [hb, ih]
      apply List.map_congr_left
      intro a _
      have htl : tally types (u :: us) a = tally types us a := by
        unfold tally
        have hne : ¬ ((u.gpu_type == a && types.contains u.gpu_type) = true) := by
          rw [hcf, Bool.and_false]
          exact Bool.false_ne_true
        rw [List.filter_cons, if_neg hne]
      rw [htl]

/-- The snapshot accumulator in closed form: the pool types in order,
each carrying the summed count of its matching usage rows. -/
lemma current_usage_eq (types : List String) (us : List UsageRecord) :
    current_usage types us = types.map fun t => (t, tally types us t) := by
  unfold current_usage initial_usage
  have := foldl_bump_shape types us fun _ => 0
  simpa using this

/-- Claim C4: the snapshot has exactly one entry per pool type in
order; the entry of a type is the summed count of the usage rows with
that gpu_type (0 when none match); appending a usage row whose
gpu_type is no pool key leaves the snapshot unchanged (the row is
silently ignored). -/
theorem snapshot_usage_per_type (types : List String) (us : List UsageRecord)
    (hN : types.Nodup) :
    ((current_usage types us).map Prod.fst = types) ∧
    (∀ t ∈ types,
      ((current_usage types us).filter fun p => p.1 == t).length = 1) ∧
    (∀ t ∈ types, dget (current_usage types us) t =
      ((us.filter fun u => u.gpu_type == t).map fun u => u.count).sum) ∧
    (∀ (us' : List UsageRecord) (u : UsageRecord), u.gpu_type ∉ types →
      current_usage types (us' ++ [u]) = current_usage types us') := by
  refine ⟨?_, ?_, ?_, ?_⟩
  · rw [current_usage_eq, List.map_map,
      show (Prod.fst ∘ fun t : String => (t, tally types us t)) = id from rfl,
      List.map_id]
  · intro t ht
    rw [current_usage_eq, List.filter_map]
    have hcomp : ((fun p : String × Nat => p.1 == t) ∘ fun x => (x, tally types us x)) =
        fun x => x == t := rfl
    rw [hcomp, List.length_map, ← List.countP_eq_length_filter]
    exact List.count_eq_one_of_mem hN ht
  · intro t ht
    unfold dget
    rw [current_usage_eq, lookup_map_key types _ t ht, Option.getD_some]
    unfold tally
    congr 1
    congr 1
    apply List.filter_congr
    intro u _
    by_cases hut : (u.gpu_type == t) = true
    · have hct : types.contains u.gpu_type = true := by
        rw [show u.gpu_type = t from by simpa using hut]
        exact List.elem_iff.2 ht
      rw [hct, Bool.and_true]
    · have hf : (u.gpu_type == t) = false := by
        simpa using hut
      rw [hf, Bool.false_and]
  · intro us' u hu
    have hstep : bump (current_usage types us') u = current_usage types us' := by
      unfold bump
      have hkeys : ((current_usage types us').map Prod.fst) = types := by
        rw [current_usage_eq, List.map_map,
          show (Prod.fst ∘ fun t : String => (t, tally types us' t)) = id from rfl,
          List.map_id]
      rw [hkeys, if_neg (fun h => hu (List.elem_iff.1 h))]
    unfold current_usage at hstep ⊢
    rw [List.foldl_append, List.foldl_cons, List.foldl_nil]
    exact hstep

/-- Witness for C4 at a concrete pool and usage set: two pool types,
two matching rows for A100, one row of an unknown type V100 that is
silently ignored. -/
theorem snapshot_usage_per_type_witness :
    ((current_usage ["A100", "H100"]
      [{ id := 1, start_date := 0, end_date := none, gpu_type := "A100",
         service_name := "svc", count := 2, source := "manual" },
       { id := 2, start_date := 0, end_date := none, gpu_type := "V100",
         service_name := "svc", count := 9, source := "manual" },
       { id := 3, start_date := 1, end_date := none, gpu_type := "A100",
         service_name := "svc", count := 3, source := "manual" }]).map Prod.fst =
      ["A100", "H100"]) ∧
    (((current_usage ["A100", "H100"]
      [{ id := 1, start_date := 0, end_date := none, gpu_type := "A100",
         service_name := "svc", count := 2, source := "manual" },
       { id := 2, start_date := 0, end_date := none, gpu_type := "V100",
         service_name := "svc", count := 9, source := "manual" },
       { id := 3, start_date := 1, end_date := none, gpu_type := "A100",
         service_name := "svc", count := 3, source := "manual" }]).filter
      fun p => p.1 == "A100").length = 1) ∧
    (dget (current_usage ["A100", "H100"]
      [{ id := 1, start_date := 0, end_date := none, gpu_type := "A100",
         service_name := "svc", count := 2, source := "manual" },
       { id := 2, start_date := 0, end_date := none, gpu_type := "V100",
         service_name := "svc", count := 9, source := "manual" },
       { id := 3, start_date := 1, end_date := none, gpu_type := "A100",
         service_name := "svc", count := 3, source := "manual" }]) "A100" =
      (([{ id := 1, start_date := 0, end_date := none, gpu_type := "A100",
           service_name := "svc", count := 2, source := "manual" },
         { id := 2, start_date := 0, end_date := none, gpu_type := "V100",
           service_name := "svc", count := 9, source := "manual" },
         { id := 3, start_date := 1, end_date := none, gpu_type := "A100",
           service_name := "svc", count := 3, source := "manual" }].filter
        fun u : UsageRecord => u.gpu_type == "A100").map fun u => u.count).sum) ∧
    (current_usage ["A100", "H100"]
      ([] ++ [{ id := 2, start_date := 0, end_date := none, gpu_type := "V100",
                service_name := "svc", count := 9, source := "manual" }]) =
      current_usage ["A100", "H100"] []) :=
  ⟨(snapshot_usage_per_type ["A100", "H100"] _ (by decide)).1,
   (snapshot_usage_per_type ["A100", "H100"] _ (by decide)).2.1 "A100" (by decide),
   (snapshot_usage_per_type ["A100", "H100"] _ (by decide)).2.2.1 "A100" (by decide),
   (snapshot_usage_per_type ["A100", "H100"] [] (by decide)).2.2.2 []
     { id := 2, start_date := 0, end_date := none, gpu_type := "V100",
       service_name := "svc", count := 9, source := "manual" } (by decide)⟩

/-! ### Claims about the snapshot table and availability -/

/-- Claim C5 (amended): the current-snapshot table is computed from the
usage records alone; the reservations table, approved entries included,
does not influence it. -/
theorem pool_snapshot_ignores_reservations (pool : List (String × Nat))
    (usage : List UsageRecord) (rs rs' : List ReservationRecord) :
    pool_df { pool := pool, usage := usage, reservations := rs } =
      pool_df { pool := pool, usage := usage, reservations := rs' } := rfl

/-- Counterexample for C5 as stated: a state holding one approved
reservation of count 5 for pool type A100 and no usage rows yields a
snapshot used count of 0 for A100, so the reservation's count is not
included in the snapshot. -/
theorem pool_snapshot_counterexample :
    ((pool_df
      { pool := [("A100", 10)], usage := [],
        reservations := [{ id := 1, start_date := 0, end_date := none,
                           gpu_type := "A100", service_name := "svc", count := 5,
                           status := "approved",
                           approvers := "member1,member2,member3" }] }).map
      PoolRow.used = [0]) ∧
    ¬ ((pool_df
      { pool := [("A100", 10)], usage := [],
        reservations := [{ id := 1, start_date := 0, end_date := none,
                           gpu_type := "A100", service_name := "svc", count := 5,
                           status := "approved",
                           approvers := "member1,member2,member3" }] }).map
      PoolRow.used = [5]) := by
  decide

/-- Claim C7: in the snapshot table and in the daily pivot, the
reported availability is exactly total minus used, negative when used
exceeds total, never clamped to zero. -/
theorem availability_is_difference (s : DashState) :
    (∀ row ∈ pool_df s, row.available = (row.total : Int) - (row.used : Int) ∧
      ((row.total : Int) < (row.used : Int) → row.available < 0)) ∧
    (∀ (d : Nat) (p : String × Nat), p ∈ s.pool →
      daily_available s d p = (p.2 : Int) - (daily_used s d p.1 : Int) ∧
      ((p.2 : Int) < (daily_used s d p.1 : Int) → daily_available s d p < 0)) := by
  constructor
  · intro row hrow
    unfold pool_df at hrow
    rcases List.mem_map.1 hrow with ⟨p, _, rfl⟩
    refine ⟨rfl, ?_⟩
    intro hlt
    dsimp only at hlt ⊢
    omega
  · intro d p _
    refine ⟨rfl, ?_⟩
    intro hlt
    unfold daily_available
    omega

/-- Witness for C7 at an over-allocated concrete state: total 1, used
3, reported availability -2, strictly negative. -/
theorem availability_is_difference_witness :
    (({ gpu_type := "A100", total := 1, used := 3, available := -2 } : PoolRow).available =
      ((1 : Nat) : Int) - ((3 : Nat) : Int)) ∧
    (({ gpu_type := "A100", total := 1, used := 3, available := -2 } : PoolRow).available < 0) :=
  ⟨((availability_is_difference
      { pool := [("A100", 1)],
        usage := [{ id := 1, start_date := 0, end_date := none, gpu_type := "A100",
                    service_name := "svc", count := 3, source := "manual" }],
        reservations := [] }).1
      { gpu_type := "A100", total := 1, used := 3, available := -2 } (by decide)).1,
   ((availability_is_difference
      { pool := [("A100", 1)],
        usage := [{ id := 1, start_date := 0, end_date := none, gpu_type := "A100",
                    service_name := "svc", count := 3, source := "manual" }],
        reservations := [] }).1
      { gpu_type := "A100", total := 1, used := 3, available := -2 } (by decide)).2
    (by decide)⟩

end GpuAdmin
